import Mathlib

/-!
Verification of the ulayfs/MadFS persistent-memory storage engine core.

The C++ sources are shallowly embedded as executable Lean functions.
Machine integers are modelled as `Nat` with explicit reductions modulo
`2 ^ w` exactly where the C++ arithmetic can wrap; addresses into the
mmapped persistent file are absolute byte positions (`logical block idx
* 4096 + offset in block`), matching the contiguous mapping of logical
blocks established by the memory table.
-/

/-- Block size in bytes, from config: BLOCK_SIZE = 2^12. -/
def BLOCK_SIZE : Nat := 4096

/-- Block shift, from config: BLOCK_SHIFT = 12. -/
def BLOCK_SHIFT : Nat := 12

/-- Number of 64-bit bitmap words per bitmap block (layout.h):
NUM_BITMAP = BLOCK_SIZE / sizeof(Bitmap). -/
def NUM_BITMAP : Nat := BLOCK_SIZE / 8

/-- Number of tx entries in a tx log block (layout.h):
NUM_TX_ENTRY = (BLOCK_SIZE - 2 * sizeof(BlockIdx)) / sizeof(TxEntry). -/
def NUM_TX_ENTRY : Nat := (BLOCK_SIZE - 2 * 4) / 8

/-- Number of log entries in a log entry block (layout.h):
NUM_LOG_ENTRY = BLOCK_SIZE / sizeof(LogEntry). -/
def NUM_LOG_ENTRY : Nat := BLOCK_SIZE / 16

/-- Modulus of 64-bit unsigned arithmetic. -/
def U64 : Nat := 2 ^ 64

/-- Modulus of 16-bit unsigned arithmetic. -/
def U16 : Nat := 2 ^ 16

/-- Volatile view of one open file: the virtual-to-logical block table
(`BlkTable`; 0 means unmapped), the byte contents of the mmapped
persistent file addressed by absolute byte position, and the next fresh
logical block index handed out by the per-thread allocator. -/
structure FileSt where
  btable : Nat → Nat
  disk : Nat → Nat
  nextFree : Nat

/-- Semantics of memcpy(dst + dstOff, src + srcOff, n) where the
destination and source are modelled as byte functions. -/
def copyRange (dst : Nat → Nat) (dstOff : Nat) (src : Nat → Nat)
    (srcOff n : Nat) : Nat → Nat :=
  fun j => if dstOff ≤ j ∧ j < dstOff + n then src (srcOff + (j - dstOff)) else dst j

/-- BlkTable::get (btable.h): returns the logical block index for a
virtual block index; 0 is returned if the virtual block is not mapped.
The dense table is modelled as a total function already defaulting to 0
outside its extent, which collapses the size check. -/
def blkTableGet (st : FileSt) (virtualBlockIdx : Nat) : Nat :=
  st.btable virtualBlockIdx

/-- File::get_data_block_ptr (file.h): translates a virtual block index
through the block table and returns the address of that logical block;
an unmapped virtual block yields logical index 0, the meta block, whose
address is 0 * BLOCK_SIZE. -/
def getDataBlockPtr (st : FileSt) (virtualBlockIdx : Nat) : Nat :=
  blkTableGet st virtualBlockIdx * BLOCK_SIZE

/-- File::write_data (file.h): copy the head pre-image when start_offset
is nonzero, then copy the payload; the trailing bytes of the shadow
blocks are left untouched (the source contains no tail copy). The
persist_fenced call has no effect on the byte contents and is modelled
in the event trace below. -/
def writeData (buf : Nat → Nat) (count startOffset startVirtualIdx startLogicalIdx : Nat)
    (st : FileSt) : FileSt :=
  let dst := startLogicalIdx * BLOCK_SIZE
  let disk1 :=
    if startOffset ≠ 0 then
      copyRange st.disk dst st.disk (blkTableGet st startVirtualIdx * BLOCK_SIZE) startOffset
    else st.disk
  let disk2 := copyRange disk1 (dst + startOffset) buf 0 count
  { st with disk := disk2 }

/-- Modelled from the spec: Allocator::alloc (declared in alloc.h, its
definition is not among the sources). Per spec 4.3 it returns
num_blocks contiguous fresh logical blocks; the model hands out the
next fresh run. -/
def allocatorAlloc (numBlocks : Nat) (st : FileSt) : Nat × FileSt :=
  (st.nextFree, { st with nextFree := st.nextFree + numBlocks })

/-- Modelled from the spec: BlkTable::update (declared in btable.h, its
definition is not among the sources). Per spec 4.7, applying the
committed tx writes the virtual range [startVirtualIdx,
startVirtualIdx + numBlocks) to the logical run starting at
startLogicalIdx. -/
def blkTableUpdateApply (startVirtualIdx numBlocks startLogicalIdx : Nat)
    (st : FileSt) : FileSt :=
  { st with btable := fun v =>
      if startVirtualIdx ≤ v ∧ v < startVirtualIdx + numBlocks then
        startLogicalIdx + (v - startVirtualIdx)
      else st.btable v }

/-- Modelled from the spec: the virtual block index containing a byte
offset. The source computes ALIGN_DOWN(offset, BLOCK_SIZE) via a macro
in utils.h, which is not among the sources; the spec control flow
translates an offset to its containing virtual block. -/
def alignDownToBlockIdx (offset : Nat) : Nat := offset / BLOCK_SIZE

/-- Value of uint16_t last_remaining = num_blocks * BLOCK_SIZE - count -
start_offset, with the 64-bit intermediate and the 16-bit truncation. -/
def lastRemainingOf (numBlocks count startOffset : Nat) : Nat :=
  ((((numBlocks * BLOCK_SIZE : Int) - count - startOffset) % (U64 : Int)).toNat) % U16

/-- File::overwrite (file.h): allocate shadow blocks, write data, record
the log entry and commit (modelled in the event trace), then update the
block table; returns count. -/
def overwrite (buf : Nat → Nat) (count offset : Nat) (st : FileSt) : Int × FileSt :=
  let numBlocks := (count + BLOCK_SIZE - 1) / BLOCK_SIZE
  let startVirtualIdx := alignDownToBlockIdx offset
  let (startLogicalIdx, st1) := allocatorAlloc numBlocks st
  let startOffset := offset - startVirtualIdx * BLOCK_SIZE
  let st2 := writeData buf count startOffset startVirtualIdx startLogicalIdx st1
  let st3 := blkTableUpdateApply startVirtualIdx numBlocks startLogicalIdx st2
  ((count : Int), st3)

/-- Body of the loop in File::pread (file.h) for block i: the last block
copies last_remaining bytes, every other block copies BLOCK_SIZE bytes;
the source for block 0 starts at start_offset within the block. -/
def preadStep (st : FileSt) (numBlocks startVirtualIdx startOffset lastRemaining : Nat)
    (buf : Nat → Nat) (i : Nat) : Nat → Nat :=
  let numBytes := if i = numBlocks - 1 then lastRemaining else BLOCK_SIZE
  let ptr := getDataBlockPtr st (startVirtualIdx + i)
  let src := if i = 0 then ptr + startOffset else ptr
  copyRange buf (i * BLOCK_SIZE) st.disk src numBytes

/-- File::pread (file.h): copy each covered block into the caller
buffer and return count. -/
def pread (st : FileSt) (buf : Nat → Nat) (count offset : Nat) : (Nat → Nat) × Int :=
  let startVirtualIdx := alignDownToBlockIdx offset
  let numBlocks := (count + BLOCK_SIZE - 1) / BLOCK_SIZE
  let startOffset := offset - startVirtualIdx * BLOCK_SIZE
  let lastRemaining := lastRemainingOf numBlocks count startOffset
  (((List.range numBlocks).foldl
      (preadStep st numBlocks startVirtualIdx startOffset lastRemaining) buf),
   (count : Int))

/-- Mask of all 64 bits set: BitmapBlock::BITMAP_ALL_USED. -/
def BITMAP_ALL_USED : Nat := 2 ^ 64 - 1

/-- Fuel-driven count of trailing zero bits. -/
def ctzAux : Nat → Nat → Nat
  | 0, _ => 0
  | fuel + 1, b => if b % 2 = 1 then 0 else ctzAux fuel (b / 2) + 1

/-- Semantics of std::countr_zero on a uint64_t: the number of trailing
zero bits, 64 when the argument is zero. -/
def ctz64 (b : Nat) : Nat := if b = 0 then 64 else ctzAux 64 b

/-- Loop body of BitmapBlock::alloc (layout.h), sequential semantics:
at each word from the starting index on, skip words equal to
BITMAP_ALL_USED; otherwise compute allocated = ~b & (b + 1) and CAS the
word from b to b & allocated (as written in the source), returning
(idx << 6) + countr_zero(b). With no interference the CAS succeeds on
the first try, so the retry label is not modelled. -/
def bitmapAllocLoop (bitmaps : Nat → Nat) (idx : Nat) :
    Nat → Int × (Nat → Nat)
  | 0 => (-1, bitmaps)
  | fuel + 1 =>
    let b := bitmaps idx
    if b = BITMAP_ALL_USED then bitmapAllocLoop bitmaps (idx + 1) fuel
    else
      let allocated := (b ^^^ BITMAP_ALL_USED) &&& ((b + 1) % U64)
      (((idx <<< 6) + ctz64 b : Nat),
        fun j => if j = idx then b &&& allocated else bitmaps j)

/-- BitmapBlock::alloc (layout.h): scan words from hint >> 6 up to
NUM_BITMAP, returning the allocated block index or -1. -/
def bitmapAlloc (bitmaps : Nat → Nat) (hint : Nat) : Int × (Nat → Nat) :=
  bitmapAllocLoop bitmaps (hint >>> 6) (NUM_BITMAP - (hint >>> 6))

/-- Loop body of TxLogBlock::try_commit (layout.h), sequential
semantics: from the starting index on and for as many iterations as the
source loop bound allows, skip slots holding a nonzero value,
CAS the first zero slot from 0 to the entry and return its index. -/
def tryCommitLoop (entries : Nat → Nat) (e : Nat) (idx : Nat) :
    Nat → Int × (Nat → Nat)
  | 0 => (-1, entries)
  | fuel + 1 =>
    if entries idx ≠ 0 then tryCommitLoop entries e (idx + 1) fuel
    else ((idx : Nat), fun j => if j = idx then e else entries j)

/-- TxLogBlock::try_commit (layout.h): the source loop runs for idx
from hint_tail while idx < NUM_LOG_ENTRY (sic: the bound used in the
source is NUM_LOG_ENTRY, not NUM_TX_ENTRY). -/
def tryCommit (entries : Nat → Nat) (e : Nat) (hintTail : Nat) : Int × (Nat → Nat) :=
  tryCommitLoop entries e hintTail (NUM_LOG_ENTRY - hintTail)

/-- Repeated application of try_commit: the slot-array state after a
sequence of (entry, hint_tail) operations. -/
def applyTryCommits (entries : Nat → Nat) (ops : List (Nat × Nat)) : Nat → Nat :=
  ops.foldl (fun st op => (tryCommit st op.1 op.2).2) entries

/-- Modelled from the spec: a TxCursor (tx/cursor.h is not among the
sources) is a (block_idx, local_idx) position in the tx stream. -/
structure TxCursor where
  blockIdx : Nat
  localIdx : Nat
deriving DecidableEq

/-- Modelled from the spec: cursor comparison orders positions in the
tx stream, lexicographically by block then local index. -/
def cursorLt (a b : TxCursor) : Bool :=
  a.blockIdx < b.blockIdx ∨ (a.blockIdx = b.blockIdx ∧ a.localIdx < b.localIdx)

/-- OffsetMgr::validate_offset (tx/offset.h) with strict offset
serialization enabled, given the content (ticket, cursor) of the
predecessor queue slot once wait_offset's spin has observed the
predecessor ticket published there: for ticket 1 wait_offset returns
null and validation passes; otherwise the result is true exactly when
the published cursor is strictly less than the current cursor (the
source returns false on the fall-through, including at equality). -/
def validateOffset (strict : Bool) (ticket : Nat) (prevSlot : Nat × TxCursor)
    (cursor : TxCursor) : Bool :=
  if !strict then true
  else if ticket - 1 = 0 then true
  else if cursorLt prevSlot.2 cursor then true
  else false

/-- State of the OffsetMgr scalar fields: the shared file offset and
the monotonic ticket counter, both uint64_t. -/
structure OffsetMgrSt where
  offset : Nat
  nextTicket : Nat
deriving DecidableEq

/-- OffsetMgr::acquire_offset (tx/offset.h): returns (old_offset,
written-back count, ticket, new state); uint64 arithmetic is modelled
with explicit reduction modulo 2^64, including the wrapping subtraction
count = offset - old_offset in the clamping branch. -/
def acquireOffset (count fileSize : Nat) (stopAtBoundary : Bool) (st : OffsetMgrSt) :
    Nat × Nat × Nat × OffsetMgrSt :=
  let oldOffset := st.offset
  let offset1 := (st.offset + count) % U64
  if stopAtBoundary ∧ offset1 > fileSize then
    (oldOffset, (fileSize + U64 - oldOffset) % U64, st.nextTicket,
      ⟨fileSize, (st.nextTicket + 1) % U64⟩)
  else
    (oldOffset, count, st.nextTicket, ⟨offset1, (st.nextTicket + 1) % U64⟩)

/-- Interposed close (lib.cpp), parameterized by the kernel close: if
the fd is a key of the shim's fd-to-File map, erase it and return 0;
otherwise fall through to posix::close. The returned flag records
whether the kernel close was invoked. -/
def closeShim (posixClose : Nat → Int) (files : Nat → Bool) (fd : Nat) :
    Int × (Nat → Bool) × Bool :=
  if files fd then (0, fun g => if g = fd then false else files g, false)
  else (posixClose fd, files, true)

/-- Address as seen by persist_fenced: either an absolute byte position
in the mmapped persistent file, or the DRAM stack slot holding a local
variable (taken by applying the address-of operator to the variable). -/
inductive PAddr where
  | pm : Nat → PAddr
  | stackVar : PAddr
deriving DecidableEq

/-- Events emitted by an overwrite, in program order. -/
inductive Ev where
  | store : Nat → Nat → Ev
  | persistFenced : PAddr → Nat → Ev
  | txBeginCas : Ev
  | txCommitCas : Ev
deriving DecidableEq

/-- Whether a persist_fenced over [base, base + len) makes the
persistent byte at absolute position b durable; flushing a DRAM stack
slot covers no persistent byte. -/
def persistCoversPm (base : PAddr) (len b : Nat) : Bool :=
  match base with
  | PAddr.pm a => decide (a ≤ b ∧ b < a + len)
  | PAddr.stackVar => false

/-- Events of File::write_data (file.h): the optional head copy, the
payload copy, then pmem::persist_fenced(&dst, count + start_offset) —
the source passes the address of the local pointer variable dst, not
the pointer value, so the flushed range is the stack slot. -/
def writeDataEvents (dst startOffset count : Nat) : List Ev :=
  (if startOffset ≠ 0 then [Ev.store dst startOffset] else []) ++
  [Ev.store (dst + startOffset) count,
   Ev.persistFenced PAddr.stackVar (count + startOffset)]

/-- Events of File::overwrite (file.h) in program order: the TxBegin
CAS, write_data's events, then the log-entry write and persist
(modelled from the spec: TxMgr::write_log_entry is not among the
sources; per spec 4.4 it writes and persists the 16-byte entry at
logEntryAddr in a log-entry block), then the commit CAS. -/
def overwriteEvents (count offset logEntryAddr : Nat) (st : FileSt) : List Ev :=
  let numBlocks := (count + BLOCK_SIZE - 1) / BLOCK_SIZE
  let startVirtualIdx := alignDownToBlockIdx offset
  let startLogicalIdx := (allocatorAlloc numBlocks st).1
  let startOffset := offset - startVirtualIdx * BLOCK_SIZE
  [Ev.txBeginCas] ++
  writeDataEvents (startLogicalIdx * BLOCK_SIZE) startOffset count ++
  [Ev.store logEntryAddr 16, Ev.persistFenced (PAddr.pm logEntryAddr) 16] ++
  [Ev.txCommitCas]

/-- Whether some persist_fenced event strictly before the first
TxCommit CAS in the trace covers persistent byte b. -/
def coveredBeforeCommit : List Ev → Nat → Bool
  | [], _ => false
  | Ev.txCommitCas :: _, _ => false
  | Ev.persistFenced base len :: rest, b =>
      persistCoversPm base len b || coveredBeforeCommit rest b
  | _ :: rest, b => coveredBeforeCommit rest b

/-! Concrete instances used by the claim theorems. -/

/-- Empty initial file for the read-your-writes scenario: no mapping,
all bytes zero, first free shadow block is logical 1. -/
def c1_st0 : FileSt := ⟨fun _ => 0, fun _ => 0, 1⟩

/-- Buffer of 4096 bytes 65 for the read-your-writes scenario. -/
def c1_buf : Nat → Nat := fun _ => 65

/-- File state after overwrite(c1_buf, 4096, 0). -/
def c1_st1 : FileSt := (overwrite c1_buf 4096 0 c1_st0).2

/-- Empty initial file for the persist-ordering trace. -/
def c2_st0 : FileSt := ⟨fun _ => 0, fun _ => 0, 1⟩

/-- Event trace of overwrite(buf, 4096, 0) on c2_st0, with the log
entry living at the start of log-entry block 2. -/
def c2_trace : List Ev := overwriteEvents 4096 0 (2 * BLOCK_SIZE) c2_st0

/-- Bitmap-block state whose word 0 holds 1 (only bit 0 allocated) and
whose remaining words are fully used. -/
def c3_bitmaps : Nat → Nat := fun i => if i = 0 then 1 else BITMAP_ALL_USED

/-- File with every virtual block unmapped and a nonzero first byte in
logical block 0 (the meta block: any file with a nonzero file_size
field has one). -/
def c4_st : FileSt := ⟨fun _ => 0, fun a => if a = 0 then 7 else 0, 1⟩

/-- File for the partial-overwrite scenario: virtual block 0 is mapped
to logical block 5 whose 4096 bytes are all 48; the next shadow block
the allocator will hand out is logical 9, whose stale byte at offset
104 is 99. -/
def c5_st : FileSt :=
  ⟨fun v => if v = 0 then 5 else 0,
   fun a =>
     if 5 * BLOCK_SIZE ≤ a ∧ a < 6 * BLOCK_SIZE then 48
     else if a = 9 * BLOCK_SIZE + 104 then 99
     else 0,
   9⟩

/-- Buffer of bytes 66 for the partial-overwrite scenario. -/
def c5_buf : Nat → Nat := fun _ => 66

/-- File state after overwrite(c5_buf, 4, 100) on c5_st. -/
def c5_st1 : FileSt := (overwrite c5_buf 4 100 c5_st).2

/-- Tx-entry arena whose slots 0..255 are occupied and whose slots from
256 on (in particular 256..510, still inside the arena) are free. -/
def c6_entries : Nat → Nat := fun j => if j < 256 then 1 else 0

/-- Slot array for the write-once witness: slot 0 already holds 5. -/
def c7_entries : Nat → Nat := fun j => if j = 0 then 5 else 0

/-- Kernel close model for the shim witness: every raw close returns
-7, distinguishable from the shim's 0. -/
def c10_posixClose : Nat → Int := fun _ => -7

/-- Shim map for the witness: exactly fd 3 is registered. -/
def c10_files : Nat → Bool := fun n => n == 3

/-! Helper lemmas about the try_commit loop. -/

/-- Unfolding of the try_commit loop at an occupied slot. -/
theorem tryCommitLoop_succ_occupied (s : Nat → Nat) (e idx n : Nat)
    (h : s idx ≠ 0) :
    tryCommitLoop s e idx (n + 1) = tryCommitLoop s e (idx + 1) n := by
  rw [show tryCommitLoop s e idx (n + 1)
      = if s idx ≠ 0 then tryCommitLoop s e (idx + 1) n
        else ((idx : Int), fun j => if j = idx then e else s j) from rfl]
  rw [if_pos h]

/-- Unfolding of the try_commit loop at a free slot. -/
theorem tryCommitLoop_succ_free (s : Nat → Nat) (e idx n : Nat)
    (h : s idx = 0) :
    tryCommitLoop s e idx (n + 1)
      = ((idx : Int), fun j => if j = idx then e else s j) := by
  rw [show tryCommitLoop s e idx (n + 1)
      = if s idx ≠ 0 then tryCommitLoop s e (idx + 1) n
        else ((idx : Int), fun j => if j = idx then e else s j) from rfl]
  rw [if_neg (by simp [h])]

/-- A slot holding a nonzero value is never changed by the try_commit
loop: the CAS expects zero and nonzero slots are skipped. -/
theorem tryCommitLoop_pres (e j : Nat) :
    ∀ (fuel idx : Nat) (s : Nat → Nat), s j ≠ 0 →
      (tryCommitLoop s e idx fuel).2 j = s j := by
  intro fuel
  induction fuel with
  | zero => intro idx s h; rfl
  | succ n ih =>
    intro idx s h
    by_cases hidx : s idx = 0
    · have hj : j ≠ idx := fun he => h (he ▸ hidx)
      rw [tryCommitLoop_succ_free s e idx n hidx]
      exact if_neg hj
    · rw [tryCommitLoop_succ_occupied s e idx n hidx]
      exact ih (idx + 1) s h

/-- Any slot the try_commit loop changes was zero before and now holds
the committed entry. -/
theorem tryCommitLoop_change (e j : Nat) :
    ∀ (fuel idx : Nat) (s : Nat → Nat),
      (tryCommitLoop s e idx fuel).2 j ≠ s j →
      s j = 0 ∧ (tryCommitLoop s e idx fuel).2 j = e := by
  intro fuel
  induction fuel with
  | zero => intro idx s h; exact absurd rfl h
  | succ n ih =>
    intro idx s h
    by_cases hidx : s idx = 0
    · rw [tryCommitLoop_succ_free s e idx n hidx] at h ⊢
      by_cases hj : j = idx
      · subst hj
        exact ⟨hidx, if_pos rfl⟩
      · exact absurd (if_neg hj) h
    · rw [tryCommitLoop_succ_occupied s e idx n hidx] at h ⊢
      exact ih (idx + 1) s h

/-- Nonzero slots survive any sequence of try_commit operations. -/
theorem applyTryCommits_pres (j : Nat) :
    ∀ (ops : List (Nat × Nat)) (s : Nat → Nat), s j ≠ 0 →
      applyTryCommits s ops j = s j := by
  intro ops
  induction ops with
  | nil => intro s h; rfl
  | cons op t ih =>
    intro s h
    have hstep : (tryCommit s op.1 op.2).2 j = s j :=
      tryCommitLoop_pres op.1 j _ op.2 s h
    have : applyTryCommits ((tryCommit s op.1 op.2).2) t j
        = (tryCommit s op.1 op.2).2 j := ih _ (hstep ▸ h)
    simpa [applyTryCommits, hstep] using this

/-! Claim theorems. -/

set_option maxRecDepth 8192 in
/-- C1: read-your-writes fails in the code. After overwrite writes 4096
bytes 65 at offset 0 (the data lands in the shadow block and the block
table maps virtual block 0 to it), pread(buf2, 4096, 0) does return
4096, but it copies last_remaining = num_blocks * 4096 - count -
start_offset = 0 bytes for the (last) block, so the output buffer keeps
its previous bytes instead of the written 65s. -/
theorem c1_pread_misses_written_bytes :
    (overwrite c1_buf 4096 0 c1_st0).1 = 4096 ∧
    c1_st1.disk (1 * BLOCK_SIZE) = 65 ∧
    c1_st1.btable 0 = 1 ∧
    (pread c1_st1 (fun _ => 0) 4096 0).2 = 4096 ∧
    (pread c1_st1 (fun _ => 0) 4096 0).1 0 = 0 ∧
    c1_buf 0 = 65 := by
  decide

/-- C2: the overwrite event trace contains the commit CAS and the
payload store, but no persist_fenced event before the commit covers any
written payload byte: write_data passes the address of its local
pointer variable (a DRAM stack slot) to persist_fenced instead of the
pointer value, so the only persist preceding the commit that touches
PMEM covers the 16-byte log entry, never the data range. -/
theorem c2_commit_not_after_data_persist :
    Ev.txCommitCas ∈ c2_trace ∧
    Ev.store (1 * BLOCK_SIZE + 0) 4096 ∈ c2_trace ∧
    coveredBeforeCommit c2_trace (1 * BLOCK_SIZE) = false ∧
    coveredBeforeCommit c2_trace (1 * BLOCK_SIZE + 4095) = false := by
  decide

/-- C3: on a word whose observed value is b = 1, BitmapBlock::alloc
CASes the word to b AND (NOT b AND (b+1)) = 0 — clearing the already
allocated bit 0 instead of producing b OR (NOT b AND (b+1)) = 3 — and
returns bit position countr_zero(b) = 0, the lowest set bit, instead of
the lowest zero bit, whose position is ctz64 of the allocated mask,
namely 1. -/
theorem c3_bitmap_alloc_clears_word :
    (bitmapAlloc c3_bitmaps 0).1 = 0 ∧
    (bitmapAlloc c3_bitmaps 0).2 0 = 0 ∧
    (1 : Nat) ||| (((1 : Nat) ^^^ BITMAP_ALL_USED) &&& (1 + 1)) = 3 ∧
    ctz64 (((1 : Nat) ^^^ BITMAP_ALL_USED) &&& (1 + 1)) = 1 := by
  decide

/-- C4: reading a virtual block with no mapping does not return zero
bytes. BlkTable::get yields logical index 0, get_data_block_ptr then
addresses logical block 0 — the meta block — and pread copies its
bytes: on a file whose meta block starts with byte 7, the first byte
pread returns for the hole is 7, not 0. -/
theorem c4_hole_returns_meta_bytes :
    blkTableGet c4_st 0 = 0 ∧
    (pread c4_st (fun _ => 0) 10 0).1 0 = 7 ∧
    (7 : Nat) ≠ 0 := by
  decide

/-- C5: the merged tail image is not produced. For overwrite(buf, 4,
100) on a file whose virtual block 0 is mapped (pre-image bytes 48),
offset + count = 104 is not block-aligned, yet the shadow block's byte
at offset 104 — just past the written payload — still holds the stale
byte 99 that was in the freshly allocated block, not the pre-image byte
48: write_data copies the head pre-image and the payload but never the
tail post-image. -/
theorem c5_tail_image_not_copied :
    c5_st.btable 0 = 5 ∧
    (100 + 4) % BLOCK_SIZE ≠ 0 ∧
    c5_st1.btable 0 = 9 ∧
    c5_st1.disk (9 * BLOCK_SIZE + 99) = 48 ∧
    c5_st1.disk (9 * BLOCK_SIZE + 100) = 66 ∧
    c5_st1.disk (9 * BLOCK_SIZE + 103) = 66 ∧
    c5_st.disk (5 * BLOCK_SIZE + 104) = 48 ∧
    c5_st1.disk (9 * BLOCK_SIZE + 104) = 99 ∧
    (99 : Nat) ≠ 48 := by
  decide

set_option maxRecDepth 8192 in
/-- C6: try_commit does not scan the whole tx-entry arena. Its loop
bound is NUM_LOG_ENTRY = 256, not NUM_TX_ENTRY = 511: on a block whose
slots 0..255 are occupied but whose slot 256 is free, try_commit(42, 0)
returns -1 and changes nothing, even though free slots remain inside
the arena. -/
theorem c6_try_commit_stops_at_256 :
    (tryCommit c6_entries 42 0).1 = -1 ∧
    (tryCommit c6_entries 42 0).2 256 = 0 ∧
    c6_entries 256 = 0 ∧
    256 < NUM_TX_ENTRY := by
  decide

/-- C7: tx slots are write-once. A single try_commit changes a slot
only from zero to the committed entry, and an arbitrary sequence of
try_commit operations never changes a slot that already holds a nonzero
value. -/
theorem c7_tx_slot_write_once (s : Nat → Nat) (j : Nat) :
    (∀ e hintTail, (tryCommit s e hintTail).2 j ≠ s j →
       s j = 0 ∧ (tryCommit s e hintTail).2 j = e) ∧
    (∀ ops : List (Nat × Nat), s j ≠ 0 → applyTryCommits s ops j = s j) := by
  constructor
  · intro e hintTail h
    exact tryCommitLoop_change e j _ hintTail s h
  · intro ops h
    exact applyTryCommits_pres j ops s h

/-- C7 witness: slot 0 of c7_entries holds 5 and survives two
try_commit operations. -/
theorem c7_tx_slot_write_once_witness :
    applyTryCommits c7_entries [(7, 0), (9, 0)] 0 = c7_entries 0 :=
  (c7_tx_slot_write_once c7_entries 0).2 [(7, 0), (9, 0)] (by decide)

/-- C8: with strict offset serialization on, a predecessor slot that
published ticket 1 with a cursor equal to the current one makes
validate_offset(2, cursor) return false: the source tests
slot.cursor < cursor and falls through to false at equality, though its
own doc comment states the result is whether prev <= curr. -/
theorem c8_validate_offset_rejects_equal :
    validateOffset true 2 (1, ⟨3, 4⟩) ⟨3, 4⟩ = false ∧
    cursorLt ⟨3, 4⟩ ⟨3, 4⟩ = false := by
  decide

/-- C9 counterexample: when the pre-call offset (10) already exceeds
file_size (5), acquire_offset(3, 5, true) writes back count =
(file_size - offset) wrapped in uint64 arithmetic, 2^64 - 5, which
exceeds the requested count 3. -/
theorem c9_acquire_offset_count_wraps :
    (acquireOffset 3 5 true ⟨10, 1⟩).2.1 = U64 - 5 ∧
    ¬ (acquireOffset 3 5 true ⟨10, 1⟩).2.1 ≤ 3 := by
  decide

/-- C9 amended: provided the pre-call offset does not exceed file_size
and neither offset + count nor the ticket counter overflows 64 bits,
acquire_offset(count, file_size, stop_at_boundary = true) returns the
pre-call offset, leaves the offset at min(offset + count, file_size),
writes back count = post-offset minus pre-offset, never more than the
requested count, hands out the pre-call next_ticket and increments it
by exactly one. -/
theorem c9_acquire_offset_spec (count fileSize : Nat) (st : OffsetMgrSt)
    (h1 : st.offset ≤ fileSize) (h2 : st.offset + count < U64)
    (h3 : st.nextTicket + 1 < U64) :
    (acquireOffset count fileSize true st).1 = st.offset ∧
    (acquireOffset count fileSize true st).2.2.2.offset
      = min (st.offset + count) fileSize ∧
    (acquireOffset count fileSize true st).2.1
      = (acquireOffset count fileSize true st).2.2.2.offset - st.offset ∧
    (acquireOffset count fileSize true st).2.1 ≤ count ∧
    (acquireOffset count fileSize true st).2.2.1 = st.nextTicket ∧
    (acquireOffset count fileSize true st).2.2.2.nextTicket
      = st.nextTicket + 1 := by
  have hmod : (st.offset + count) % U64 = st.offset + count := Nat.mod_eq_of_lt h2
  have htk : (st.nextTicket + 1) % U64 = st.nextTicket + 1 := Nat.mod_eq_of_lt h3
  by_cases hgt : st.offset + count > fileSize
  · have hcond : acquireOffset count fileSize true st
        = (st.offset, (fileSize + U64 - st.offset) % U64, st.nextTicket,
            ⟨fileSize, st.nextTicket + 1⟩) := by
      rw [show acquireOffset count fileSize true st
          = if (true : Bool) ∧ (st.offset + count) % U64 > fileSize then
              (st.offset, (fileSize + U64 - st.offset) % U64, st.nextTicket,
                ⟨fileSize, (st.nextTicket + 1) % U64⟩)
            else (st.offset, count, st.nextTicket,
                ⟨(st.offset + count) % U64, (st.nextTicket + 1) % U64⟩) from rfl]
      rw [hmod, htk, if_pos ⟨rfl, hgt⟩]
    have hwrap : (fileSize + U64 - st.offset) % U64 = fileSize - st.offset := by
      have hfs : fileSize < U64 := lt_of_le_of_lt (le_of_lt hgt) h2
      simp only [U64] at *
      omega
    rw [hcond, hwrap]
    refine ⟨rfl, ?_, rfl, ?_, rfl, rfl⟩
    · show fileSize = min (st.offset + count) fileSize
      omega
    · show fileSize - st.offset ≤ count
      omega
  · have hcond : acquireOffset count fileSize true st
        = (st.offset, count, st.nextTicket,
            ⟨st.offset + count, st.nextTicket + 1⟩) := by
      rw [show acquireOffset count fileSize true st
          = if (true : Bool) ∧ (st.offset + count) % U64 > fileSize then
              (st.offset, (fileSize + U64 - st.offset) % U64, st.nextTicket,
                ⟨fileSize, (st.nextTicket + 1) % U64⟩)
            else (st.offset, count, st.nextTicket,
                ⟨(st.offset + count) % U64, (st.nextTicket + 1) % U64⟩) from rfl]
      rw [hmod, htk, if_neg (fun hc => hgt hc.2)]
    rw [hcond]
    refine ⟨rfl, ?_, ?_, le_rfl, rfl, rfl⟩
    · show st.offset + count = min (st.offset + count) fileSize
      omega
    · show count = st.offset + count - st.offset
      omega

/-- C9 witness: acquire_offset(3, 5, true) on offset 0, ticket counter
1, instantiating the amended specification. -/
theorem c9_acquire_offset_spec_witness :
    (acquireOffset 3 5 true ⟨0, 1⟩).1 = 0 ∧
    (acquireOffset 3 5 true ⟨0, 1⟩).2.2.2.offset = min (0 + 3) 5 ∧
    (acquireOffset 3 5 true ⟨0, 1⟩).2.1
      = (acquireOffset 3 5 true ⟨0, 1⟩).2.2.2.offset - 0 ∧
    (acquireOffset 3 5 true ⟨0, 1⟩).2.1 ≤ 3 ∧
    (acquireOffset 3 5 true ⟨0, 1⟩).2.2.1 = 1 ∧
    (acquireOffset 3 5 true ⟨0, 1⟩).2.2.2.nextTicket = 1 + 1 :=
  c9_acquire_offset_spec 3 5 ⟨0, 1⟩ (by decide) (by decide) (by decide)

/-- C10: closing a registered fd erases it from the shim map and
returns 0 without invoking the kernel close; every other key of the map
is untouched, and a second close of the same fd falls through to
posix::close on the unchanged map. -/
theorem c10_close_bypasses_kernel (pc : Nat → Int) (files : Nat → Bool) (fd : Nat)
    (h : files fd = true) :
    (closeShim pc files fd).1 = 0 ∧
    (closeShim pc files fd).2.2 = false ∧
    (closeShim pc files fd).2.1 fd = false ∧
    (∀ g, g ≠ fd → (closeShim pc files fd).2.1 g = files g) ∧
    closeShim pc (closeShim pc files fd).2.1 fd
      = (pc fd, (closeShim pc files fd).2.1, true) := by
  refine ⟨?_, ?_, ?_, ?_, ?_⟩
  · simp [closeShim, h]
  · simp [closeShim, h]
  · simp [closeShim, h]
  · intro g hg; simp [closeShim, h, hg]
  · simp [closeShim, h]

/-- C10 witness: fd 3 is registered in c10_files; instantiating the
shim close theorem there. -/
theorem c10_close_bypasses_kernel_witness :
    (closeShim c10_posixClose c10_files 3).1 = 0 ∧
    (closeShim c10_posixClose c10_files 3).2.2 = false ∧
    (closeShim c10_posixClose c10_files 3).2.1 3 = false ∧
    (∀ g, g ≠ 3 → (closeShim c10_posixClose c10_files 3).2.1 g = c10_files g) ∧
    closeShim c10_posixClose (closeShim c10_posixClose c10_files 3).2.1 3
      = (c10_posixClose 3, (closeShim c10_posixClose c10_files 3).2.1, true) :=
  c10_close_bypasses_kernel c10_posixClose c10_files 3 (by decide)
